import Mathlib

/-!
Verification of the resource-provider reconciliation engine in
`localstack/services/cloudformation/resource_provider.py`.

The Python module is embedded shallowly:

* Python dicts used as key/value contexts (`callbackContext`,
  `custom_context`) are embedded as functions `String → Option V`; the
  Python merge `{**a, **b}` (keys of `b` win) becomes `mergeCtx`.
* Effects are made explicit by threading a `World` value: `ext` is the
  provider-visible external state (Python providers may read and write
  arbitrary global state), `uuidCount` is the supply for
  `uuid.uuid4()` tokens, and `trace` is a ghost log recording each
  `convert_payload` call, provider instantiation, capability invocation
  and `time.sleep` performed by the engine, so that counting claims
  ("k+1 invocations, k sleeps") are statable.
* `copy.deepcopy(raw_payload)` is modelled by keeping the caller's
  payload object (`caller`) and the loop's working copy (`payload`) as
  distinct values: the mutation `payload["callbackContext"] = context`
  updates only the working copy, and the caller's object is returned in
  the `DeployOutcome` so non-mutation is observable.
* `raise NotImplementedError` / `raise TimeoutError` become `Except.error`
  values of type `Err`.
-/

namespace LocalStack

/-- The `OperationStatus` enumeration (resource_provider.py lines 20-24). -/
inductive OperationStatus
  | PENDING
  | IN_PROGRESS
  | SUCCESS
  | FAILED
  deriving DecidableEq, Repr

/-- A Python `dict` used as an opaque string-keyed context, embedded by its
lookup function. -/
abbrev Ctx (V : Type) := String → Option V

/-- Python dict merge `{**a, **b}`: the result maps `k` to `b[k]` when `k` is
a key of `b`, and to `a[k]` otherwise (keys of `b` win on conflict). -/
def mergeCtx {V : Type} (a b : Ctx V) : Ctx V :=
  fun k =>
    match b k with
    | some v => some v
    | none => a k

/-- A Python `dict[str, str]` (tags), embedded by its lookup function. -/
abbrev TagMap := String → Option String

/-- The `ProgressEvent` dataclass (lines 27-35): one provider-operation
outcome. `P` is the `Properties` type parameter, `V` the value type of the
opaque `custom_context` dict. -/
structure ProgressEvent (P V : Type) where
  status : OperationStatus
  resource_model : P
  message : String := ""
  result : Option String := none
  error_code : Option String := none
  custom_context : Ctx V := fun _ => none

/-- The `Credentials` TypedDict (lines 38-41). -/
structure Credentials where
  accessKeyId : String
  secretAccessKey : String
  sessionToken : String

/-- The `ResourceProviderPayloadRequestData` TypedDict (lines 44-53). -/
structure ResourceProviderPayloadRequestData (P : Type) where
  logicalResourceId : String
  resourceProperties : P
  previousResourceProperties : Option P
  callerCredentials : Credentials
  providerCredentials : Credentials
  systemTags : TagMap
  previousSystemTags : TagMap
  stackTags : TagMap
  previousStackTags : TagMap

/-- The `ResourceProviderPayload` TypedDict (lines 56-65): the raw wire
payload. -/
structure ResourceProviderPayload (P V : Type) where
  callbackContext : Ctx V
  stackId : String
  requestData : ResourceProviderPayloadRequestData P
  resourceType : String
  resourceTypeVersion : String
  awsAccountId : String
  bearerToken : String
  region : String
  action : String

/-- The scoped client factory produced by `connect_to` (localstack.aws.connect),
embedded by the arguments it was constructed from: the engine treats it as
opaque beyond "carries the resolved credentials and region". -/
structure ServiceLevelClientFactory where
  aws_access_key_id : String
  aws_session_token : String
  aws_secret_access_key : String
  region_name : String

/-- The `connect_to` call as used by `convert_payload` (lines 74-79):
constructs the scoped client factory from credentials and region. -/
def connect_to (aws_access_key_id aws_session_token aws_secret_access_key
    region_name : String) : ServiceLevelClientFactory :=
  ⟨aws_access_key_id, aws_session_token, aws_secret_access_key, region_name⟩

/-- The `ResourceRequest` dataclass (lines 96-117). The `logger` field holds
the logger's name (`logging.getLogger("abc")`). -/
structure ResourceRequest (P V : Type) where
  _original_payload : P
  aws_client_factory : ServiceLevelClientFactory
  request_token : String
  stack_name : String
  stack_id : String
  account_id : String
  region_name : String
  desired_state : P
  logical_resource_id : String
  logger : String
  custom_context : Ctx V
  previous_state : Option P := none
  previous_tags : Option TagMap := none
  tags : TagMap := fun _ => none

/-- Exceptions raised by the engine: `NotImplementedError` (optionally
carrying the offending action string, line 186) and `TimeoutError`
(line 167). -/
inductive Err
  | notImplementedError (arg : Option String)
  | timeoutError (message : String)
  deriving DecidableEq, Repr

/-- Ghost trace events recording the engine's observable steps: a
`convert_payload` translation (which mints a request token), a provider
instantiation (`provider_cls()`), a capability invocation
(`create`/`update`/`delete`), and a `time.sleep`. -/
inductive TraceEv
  | translate
  | instantiate
  | invoke (capability : String)
  | sleep (duration : Nat)
  deriving DecidableEq, Repr

/-- The threaded effect state: provider-visible external state `ext`, the
fresh-token supply counter for `uuid.uuid4()`, and the ghost event trace. -/
structure World (σ : Type) where
  ext : σ
  uuidCount : Nat
  trace : List TraceEv

/-- Number of provider capability invocations recorded in a trace. -/
def countInvoke (t : List TraceEv) : Nat :=
  (t.filter fun e =>
    match e with
    | TraceEv.invoke _ => true
    | _ => false).length

/-- Number of `time.sleep` calls recorded in a trace. -/
def countSleep (t : List TraceEv) : Nat :=
  (t.filter fun e =>
    match e with
    | TraceEv.sleep _ => true
    | _ => false).length

/-- The `uuid.uuid4()` token source, modelled as a deterministic fresh-token
supply indexed by the world's `uuidCount`: distinct counter values yield
distinct token strings (all the engine relies on is per-call freshness). -/
def uuid4 (n : Nat) : String := String.mk (List.replicate n 'u')

/-- The `convert_payload` function (lines 71-93), threading the world for the
token supply and recording a `translate` trace event for the call. -/
def convert_payload {P V σ : Type} (stack_name stack_id : String)
    (payload : ResourceProviderPayload P V) (w : World σ) :
    ResourceRequest P V × World σ :=
  let client_factory := connect_to
    payload.requestData.callerCredentials.accessKeyId
    payload.requestData.callerCredentials.sessionToken
    payload.requestData.callerCredentials.secretAccessKey
    payload.region
  let desired_state := payload.requestData.resourceProperties
  (⟨desired_state, client_factory, uuid4 w.uuidCount, stack_name, stack_id,
    "000000000000", "us-east-1", desired_state,
    payload.requestData.logicalResourceId, "abc", payload.callbackContext,
    none, none, fun _ => none⟩,
   { w with
      uuidCount := w.uuidCount + 1,
      trace := w.trace ++ [TraceEv.translate] })

/-- A provider capability (`create`/`update`/`delete`): consumes a request
and the external state, producing either a `ProgressEvent` or a raised
exception, together with the updated external state. -/
abbrev Capability (σ P V : Type) :=
  ResourceRequest P V → σ → Except Err (ProgressEvent P V) × σ

/-- The base-class behavior of an unimplemented capability
(lines 135-142): `raise NotImplementedError`. -/
def base_capability {σ P V : Type} : Capability σ P V :=
  fun _ s => (Except.error (Err.notImplementedError none), s)

/-- The `ResourceProvider` base class (lines 130-142): three capabilities
defaulting to the unimplemented behavior. A registered class is embedded by
the instance its zero-argument constructor yields. -/
structure ResourceProvider (σ P V : Type) where
  create : Capability σ P V := base_capability
  update : Capability σ P V := base_capability
  delete : Capability σ P V := base_capability

/-- The `PRIVATE_REGISTRY` mapping (line 16) from resource-type name to
provider class, embedded as an explicit parameter of the executor's
operations. -/
abbrev Registry (σ P V : Type) := String → Option (ResourceProvider σ P V)

/-- The `ResourceProviderExecutor` constructor state (lines 150-153). -/
structure ResourceProviderExecutor where
  resource_type : String
  stack_name : String
  stack_id : String

/-- The `execute_action` method (lines 169-190): registry lookup, payload
translation, provider instantiation and string-keyed action dispatch,
in source order. -/
def execute_action {σ P V : Type} (reg : Registry σ P V)
    (ex : ResourceProviderExecutor) (raw_payload : ResourceProviderPayload P V)
    (w : World σ) : Except Err (ProgressEvent P V) × World σ :=
  match reg ex.resource_type with
  | some provider_cls =>
    let change_type := raw_payload.action
    let rw := convert_payload ex.stack_name ex.stack_id raw_payload w
    let request := rw.1
    let w1 := { rw.2 with trace := rw.2.trace ++ [TraceEv.instantiate] }
    let provider := provider_cls
    if change_type = "Add" then
      let rs := provider.create request w1.ext
      (rs.1, { w1 with ext := rs.2, trace := w1.trace ++ [TraceEv.invoke "create"] })
    else if change_type = "Dynamic" ∨ change_type = "Modify" then
      let rs := provider.update request w1.ext
      (rs.1, { w1 with ext := rs.2, trace := w1.trace ++ [TraceEv.invoke "update"] })
    else if change_type = "Remove" then
      let rs := provider.delete request w1.ext
      (rs.1, { w1 with ext := rs.2, trace := w1.trace ++ [TraceEv.invoke "delete"] })
    else
      (Except.error (Err.notImplementedError (some change_type)), w1)
  | none => (Except.error (Err.notImplementedError none), w)

/-- The outcome of a `deploy_loop` call: the returned event or raised
exception, the final world, and the caller's payload object as observable
after the call (for the deep-copy frame property). -/
structure DeployOutcome (σ P V : Type) where
  result : Except Err (ProgressEvent P V)
  world : World σ
  caller : ResourceProviderPayload P V

/-- The `copy.deepcopy(raw_payload)` step (line 158): the working copy starts
as an independent value equal to the caller's payload. -/
def deepcopy_payload {P V : Type} (p : ResourceProviderPayload P V) :
    ResourceProviderPayload P V := p

/-- The body of the `for _ in range(max_iterations)` loop of `deploy_loop`
(lines 159-167), by fuel on the remaining iterations. `caller` is the
caller's payload object, distinct from the working copy `payload`; the
line-164 mutation updates only the working copy. Exhausting the fuel is the
`for`/`else` branch raising `TimeoutError`; an exception from
`execute_action` propagates out. -/
def deploy_loop_go {σ P V : Type} (reg : Registry σ P V)
    (ex : ResourceProviderExecutor) (sleep_time : Nat)
    (caller : ResourceProviderPayload P V) :
    ResourceProviderPayload P V → World σ → Nat → DeployOutcome σ P V
  | _payload, w, 0 =>
    ⟨Except.error (Err.timeoutError "Could not perform deploy loop action"), w, caller⟩
  | payload, w, n + 1 =>
    let rw := execute_action reg ex payload w
    match rw.1 with
    | Except.error e => ⟨Except.error e, rw.2, caller⟩
    | Except.ok event =>
      if event.status = OperationStatus.SUCCESS then
        ⟨Except.ok event, rw.2, caller⟩
      else
        let context := mergeCtx payload.callbackContext event.custom_context
        let payload2 := { payload with callbackContext := context }
        let w2 := { rw.2 with trace := rw.2.trace ++ [TraceEv.sleep sleep_time] }
        deploy_loop_go reg ex sleep_time caller payload2 w2 n

/-- The `deploy_loop` method (lines 155-167). `max_iterations` is a Python
int (default 30), so it may be nonpositive, in which case `range` is empty;
`sleep_time` (default 5) is in abstract time units. -/
def deploy_loop {σ P V : Type} (reg : Registry σ P V)
    (ex : ResourceProviderExecutor) (raw_payload : ResourceProviderPayload P V)
    (max_iterations : Int) (sleep_time : Nat) (w : World σ) :
    DeployOutcome σ P V :=
  let payload := deepcopy_payload raw_payload
  deploy_loop_go reg ex sleep_time raw_payload payload w max_iterations.toNat

/-- External state of a probe provider: the number of capability calls made
so far, and the log of the `custom_context` of each request it received. -/
abbrev ProbeState (V : Type) := Nat × List (Ctx V)

/-- A probe capability whose outcome on its `n`-th call (counting from 0) is
`f n`; it logs the `custom_context` of the request it receives. Every
provider whose per-attempt outcomes form a sequence is captured by some
`f`. -/
def probe_capability {P V : Type} (f : Nat → ProgressEvent P V) :
    Capability (ProbeState V) P V :=
  fun req s => (Except.ok (f s.1), (s.1 + 1, s.2 ++ [req.custom_context]))

/-- A provider all of whose capabilities behave as the probe for `f`. -/
def probe_provider {P V : Type} (f : Nat → ProgressEvent P V) :
    ResourceProvider (ProbeState V) P V :=
  ⟨probe_capability f, probe_capability f, probe_capability f⟩

/-- A registry holding exactly the probe provider for `f` under the
resource-type name `rt`. -/
def probe_registry {P V : Type} (rt : String) (f : Nat → ProgressEvent P V) :
    Registry (ProbeState V) P V :=
  fun t => if t = rt then some (probe_provider f) else none

/-- The action strings recognized by `execute_action`'s dispatch. -/
def recognized_action (a : String) : Prop :=
  a = "Add" ∨ a = "Dynamic" ∨ a = "Modify" ∨ a = "Remove"

/-- Specification of the `callbackContext` evolution: `ctxFrom f c0 c j` is
the working payload's context after `j` non-success attempts, when the
probe's call counter started at `c` and the context at `c0`. -/
def ctxFrom {P V : Type} (f : Nat → ProgressEvent P V) (c0 : Ctx V) (c : Nat) :
    Nat → Ctx V
  | 0 => c0
  | j + 1 => mergeCtx (ctxFrom f c0 c j) (f (c + j)).custom_context

/-- A concrete event sequence for witnesses: `IN_PROGRESS` on the first two
attempts, `SUCCESS` from the third on. -/
def witEvents : Nat → ProgressEvent Unit Unit :=
  fun n =>
    if n < 2 then ⟨OperationStatus.IN_PROGRESS, (), "", none, none, fun _ => none⟩
    else ⟨OperationStatus.SUCCESS, (), "", none, none, fun _ => none⟩

/-- A concrete event sequence for witnesses: always `FAILED`. -/
def witEventsFailed : Nat → ProgressEvent Unit Unit :=
  fun _ => ⟨OperationStatus.FAILED, (), "", none, none, fun _ => none⟩

/-- Concrete credentials for witnesses. -/
def witCreds : Credentials := ⟨"ak", "sk", "tok"⟩

/-- Concrete request data for witnesses. -/
def witRequestData : ResourceProviderPayloadRequestData Unit :=
  ⟨"res1", (), none, witCreds, witCreds, fun _ => none, fun _ => none,
   fun _ => none, fun _ => none⟩

/-- A concrete raw payload for witnesses, parameterized by the action
string. -/
def witPayload (a : String) : ResourceProviderPayload Unit Unit :=
  ⟨fun _ => none, "stack-1", witRequestData, "Test::Resource", "1",
   "111111111111", "bearer", "eu-west-1", a⟩

/-- A concrete provider over trivial external state whose three
capabilities return distinct statuses. -/
def witProvider : ResourceProvider Unit Unit Unit :=
  ⟨fun _ s => (Except.ok ⟨OperationStatus.SUCCESS, (), "", none, none, fun _ => none⟩, s),
   fun _ s => (Except.ok ⟨OperationStatus.FAILED, (), "", none, none, fun _ => none⟩, s),
   fun _ s => (Except.ok ⟨OperationStatus.PENDING, (), "", none, none, fun _ => none⟩, s)⟩

/-- A concrete registry holding `witProvider` under `Test::Resource`. -/
def witRegistry : Registry Unit Unit Unit :=
  fun t => if t = "Test::Resource" then some witProvider else none

/-- A concrete empty registry. -/
def witRegistryEmpty : Registry Unit Unit Unit := fun _ => none

/-- A request with its token blanked, for stating that translation is
deterministic apart from the freshly minted token. -/
def erase_request_token {P V : Type} (r : ResourceRequest P V) :
    ResourceRequest P V :=
  { r with request_token := "" }

/-- A request with its client factory blanked, for stating which request
fields the payload's `region` does and does not influence. -/
def erase_client_factory {P V : Type} (r : ResourceRequest P V) :
    ResourceRequest P V :=
  { r with aws_client_factory := connect_to "" "" "" "" }

lemma countInvoke_append (a b : List TraceEv) :
    countInvoke (a ++ b) = countInvoke a + countInvoke b := by
  simp [countInvoke, List.filter_append]

lemma countSleep_append (a b : List TraceEv) :
    countSleep (a ++ b) = countSleep a + countSleep b := by
  simp [countSleep, List.filter_append]

lemma countInvoke_step (cap : String) :
    countInvoke [TraceEv.translate, TraceEv.instantiate, TraceEv.invoke cap] = 1 := by
  simp [countInvoke, List.filter]

lemma countSleep_step (cap : String) :
    countSleep [TraceEv.translate, TraceEv.instantiate, TraceEv.invoke cap] = 0 := by
  simp [countSleep, List.filter]

lemma ctxFrom_shift {P V : Type} (f : Nat → ProgressEvent P V) (c0 : Ctx V)
    (c : Nat) : ∀ i, ctxFrom f (mergeCtx c0 (f c).custom_context) (c + 1) i =
      ctxFrom f c0 c (i + 1) := by
  intro i
  induction i with
  | zero => simp [ctxFrom]
  | succ j ih =>
    have harg : c + 1 + j = c + (j + 1) := by omega
    calc ctxFrom f (mergeCtx c0 (f c).custom_context) (c + 1) (j + 1)
        = mergeCtx (ctxFrom f (mergeCtx c0 (f c).custom_context) (c + 1) j)
            (f (c + 1 + j)).custom_context := rfl
      _ = mergeCtx (ctxFrom f c0 c (j + 1)) (f (c + (j + 1))).custom_context := by
          rw [ih, harg]
      _ = ctxFrom f c0 c (j + 1 + 1) := rfl

/-- One step of the loop against the probe registry: a recognized action
dispatches to a probe capability, yielding `f c`, bumping the counter and
the token supply, logging the request's context, and appending a
translate/instantiate/invoke trace segment. -/
lemma execute_action_probe {P V : Type} (f : Nat → ProgressEvent P V)
    (rt sn sid : String) (payload : ResourceProviderPayload P V)
    (c u : Nat) (seen : List (Ctx V)) (tr : List TraceEv)
    (ha : recognized_action payload.action) :
    ∃ cap : String,
      execute_action (probe_registry rt f) ⟨rt, sn, sid⟩ payload ⟨(c, seen), u, tr⟩ =
        (Except.ok (f c),
         ⟨(c + 1, seen ++ [payload.callbackContext]), u + 1,
          tr ++ [TraceEv.translate, TraceEv.instantiate, TraceEv.invoke cap]⟩) := by
  rcases ha with h | h | h | h
  · exact ⟨"create", by
      simp [execute_action, probe_registry, convert_payload, probe_provider,
        probe_capability, h]⟩
  · exact ⟨"update", by
      simp [execute_action, probe_registry, convert_payload, probe_provider,
        probe_capability, h]⟩
  · exact ⟨"update", by
      simp [execute_action, probe_registry, convert_payload, probe_provider,
        probe_capability, h]⟩
  · exact ⟨"delete", by
      simp [execute_action, probe_registry, convert_payload, probe_provider,
        probe_capability, h]⟩

lemma countInvoke_seg (cap : String) (st : Nat) :
    countInvoke [TraceEv.translate, TraceEv.instantiate, TraceEv.invoke cap,
      TraceEv.sleep st] = 1 := by
  simp [countInvoke, List.filter]

lemma countSleep_seg (cap : String) (st : Nat) :
    countSleep [TraceEv.translate, TraceEv.instantiate, TraceEv.invoke cap,
      TraceEv.sleep st] = 1 := by
  simp [countSleep, List.filter]

lemma range_map_ctxFrom {P V : Type} (f : Nat → ProgressEvent P V) (c0 : Ctx V)
    (c j : Nat) :
    c0 :: (List.range j).map (ctxFrom f (mergeCtx c0 (f c).custom_context) (c + 1)) =
      (List.range (j + 1)).map (ctxFrom f c0 c) := by
  rw [List.range_succ_eq_map, List.map_cons, List.map_map]
  have h : ctxFrom f (mergeCtx c0 (f c).custom_context) (c + 1) =
      ctxFrom f c0 c ∘ Nat.succ := by
    funext i
    exact ctxFrom_shift f c0 c i
  rw [h]
  rfl

/-- Full characterization of the loop body against the probe when the probe
reports a non-`SUCCESS` status on its next `k` calls and `SUCCESS` on the
call after: the loop returns that event, makes `k + 1` invocations, sleeps
`k` times, logs the `k + 1` contexts it passed to the provider, and leaves
the caller's payload untouched. -/
lemma deploy_loop_go_probe_success {P V : Type} (f : Nat → ProgressEvent P V)
    (rt sn sid : String) (st : Nat) (caller : ResourceProviderPayload P V) :
    ∀ (k c u n : Nat) (work : ResourceProviderPayload P V)
      (seen : List (Ctx V)) (tr : List TraceEv),
      recognized_action work.action →
      k < n →
      (∀ i, i < k → (f (c + i)).status ≠ OperationStatus.SUCCESS) →
      (f (c + k)).status = OperationStatus.SUCCESS →
      (deploy_loop_go (probe_registry rt f) ⟨rt, sn, sid⟩ st caller work
          ⟨(c, seen), u, tr⟩ n).result = Except.ok (f (c + k)) ∧
      (deploy_loop_go (probe_registry rt f) ⟨rt, sn, sid⟩ st caller work
          ⟨(c, seen), u, tr⟩ n).world.ext =
        (c + (k + 1),
         seen ++ (List.range (k + 1)).map (ctxFrom f work.callbackContext c)) ∧
      (deploy_loop_go (probe_registry rt f) ⟨rt, sn, sid⟩ st caller work
          ⟨(c, seen), u, tr⟩ n).world.uuidCount = u + (k + 1) ∧
      countInvoke (deploy_loop_go (probe_registry rt f) ⟨rt, sn, sid⟩ st caller work
          ⟨(c, seen), u, tr⟩ n).world.trace = countInvoke tr + (k + 1) ∧
      countSleep (deploy_loop_go (probe_registry rt f) ⟨rt, sn, sid⟩ st caller work
          ⟨(c, seen), u, tr⟩ n).world.trace = countSleep tr + k ∧
      (deploy_loop_go (probe_registry rt f) ⟨rt, sn, sid⟩ st caller work
          ⟨(c, seen), u, tr⟩ n).caller = caller := by
  intro k
  induction k with
  | zero =>
    intro c u n work seen tr hact hkn hnot hsucc
    obtain ⟨m, rfl⟩ : ∃ m, n = m + 1 := ⟨n - 1, by omega⟩
    obtain ⟨cap, hexec⟩ := execute_action_probe f rt sn sid work c u seen tr hact
    have hs : (f c).status = OperationStatus.SUCCESS := by simpa using hsucc
    simp only [deploy_loop_go, hexec, hs, if_pos rfl]
    refine ⟨by simp, ?_, by simp, ?_, ?_, rfl⟩
    · rw [(by decide : List.range 1 = [0])]
      rfl
    · simp [countInvoke_append, countInvoke_step]
    · simp [countSleep_append, countSleep_step]
  | succ j ih =>
    intro c u n work seen tr hact hkn hnot hsucc
    obtain ⟨m, rfl⟩ : ∃ m, n = m + 1 := ⟨n - 1, by omega⟩
    obtain ⟨cap, hexec⟩ := execute_action_probe f rt sn sid work c u seen tr hact
    have hns : ¬(f c).status = OperationStatus.SUCCESS := by
      have h0 := hnot 0 (by omega)
      simpa using h0
    have hact2 : recognized_action ({ work with callbackContext := mergeCtx work.callbackContext (f c).custom_context } : ResourceProviderPayload P V).action := hact
    have hnot2 : ∀ i, i < j →
        (f (c + 1 + i)).status ≠ OperationStatus.SUCCESS := by
      intro i hi
      have h := hnot (i + 1) (by omega)
      have e : c + 1 + i = c + (i + 1) := by omega
      rw [e]
      exact h
    have hsucc2 : (f (c + 1 + j)).status = OperationStatus.SUCCESS := by
      have e : c + 1 + j = c + (j + 1) := by omega
      rw [e]
      exact hsucc
    have ihx := ih (c + 1) (u + 1) m
      { work with callbackContext := mergeCtx work.callbackContext (f c).custom_context }
      (seen ++ [work.callbackContext])
      (tr ++ [TraceEv.translate, TraceEv.instantiate, TraceEv.invoke cap,
        TraceEv.sleep st])
      hact2 (by omega) hnot2 hsucc2
    obtain ⟨h1, h2, h3, h4, h5, h6⟩ := ihx
    simp only [deploy_loop_go, hexec, if_neg hns]
    have harg : c + 1 + j = c + (j + 1) := by omega
    refine ⟨?_, ?_, ?_, ?_, ?_, ?_⟩
    · rw [show (tr ++ [TraceEv.translate, TraceEv.instantiate, TraceEv.invoke cap])
          ++ [TraceEv.sleep st]
          = tr ++ [TraceEv.translate, TraceEv.instantiate, TraceEv.invoke cap,
              TraceEv.sleep st] by simp]
      rw [h1, harg]
    · rw [show (tr ++ [TraceEv.translate, TraceEv.instantiate, TraceEv.invoke cap])
          ++ [TraceEv.sleep st]
          = tr ++ [TraceEv.translate, TraceEv.instantiate, TraceEv.invoke cap,
              TraceEv.sleep st] by simp]
      rw [h2]
      dsimp only
      simp only [Prod.mk.injEq]
      constructor
      · omega
      · rw [List.append_assoc, List.singleton_append, range_map_ctxFrom]
    · rw [show (tr ++ [TraceEv.translate, TraceEv.instantiate, TraceEv.invoke cap])
          ++ [TraceEv.sleep st]
          = tr ++ [TraceEv.translate, TraceEv.instantiate, TraceEv.invoke cap,
              TraceEv.sleep st] by simp]
      rw [h3]
      omega
    · rw [show (tr ++ [TraceEv.translate, TraceEv.instantiate, TraceEv.invoke cap])
          ++ [TraceEv.sleep st]
          = tr ++ [TraceEv.translate, TraceEv.instantiate, TraceEv.invoke cap,
              TraceEv.sleep st] by simp]
      rw [h4, countInvoke_append, countInvoke_seg]
      omega
    · rw [show (tr ++ [TraceEv.translate, TraceEv.instantiate, TraceEv.invoke cap])
          ++ [TraceEv.sleep st]
          = tr ++ [TraceEv.translate, TraceEv.instantiate, TraceEv.invoke cap,
              TraceEv.sleep st] by simp]
      rw [h5, countSleep_append, countSleep_seg]
      omega
    · rw [show (tr ++ [TraceEv.translate, TraceEv.instantiate, TraceEv.invoke cap])
          ++ [TraceEv.sleep st]
          = tr ++ [TraceEv.translate, TraceEv.instantiate, TraceEv.invoke cap,
              TraceEv.sleep st] by simp]
      rw [h6]

/-- Full characterization of the loop body against the probe when the probe
never reports `SUCCESS` within the remaining fuel: the loop raises the
timeout, makes one invocation and one sleep per fuel unit, logs every
context it passed to the provider, and leaves the caller's payload
untouched. -/
lemma deploy_loop_go_probe_timeout {P V : Type} (f : Nat → ProgressEvent P V)
    (rt sn sid : String) (st : Nat) (caller : ResourceProviderPayload P V) :
    ∀ (n c u : Nat) (work : ResourceProviderPayload P V)
      (seen : List (Ctx V)) (tr : List TraceEv),
      recognized_action work.action →
      (∀ i, i < n → (f (c + i)).status ≠ OperationStatus.SUCCESS) →
      (deploy_loop_go (probe_registry rt f) ⟨rt, sn, sid⟩ st caller work
          ⟨(c, seen), u, tr⟩ n).result =
        Except.error (Err.timeoutError "Could not perform deploy loop action") ∧
      (deploy_loop_go (probe_registry rt f) ⟨rt, sn, sid⟩ st caller work
          ⟨(c, seen), u, tr⟩ n).world.ext =
        (c + n, seen ++ (List.range n).map (ctxFrom f work.callbackContext c)) ∧
      (deploy_loop_go (probe_registry rt f) ⟨rt, sn, sid⟩ st caller work
          ⟨(c, seen), u, tr⟩ n).world.uuidCount = u + n ∧
      countInvoke (deploy_loop_go (probe_registry rt f) ⟨rt, sn, sid⟩ st caller work
          ⟨(c, seen), u, tr⟩ n).world.trace = countInvoke tr + n ∧
      countSleep (deploy_loop_go (probe_registry rt f) ⟨rt, sn, sid⟩ st caller work
          ⟨(c, seen), u, tr⟩ n).world.trace = countSleep tr + n ∧
      (deploy_loop_go (probe_registry rt f) ⟨rt, sn, sid⟩ st caller work
          ⟨(c, seen), u, tr⟩ n).caller = caller := by
  intro n
  induction n with
  | zero =>
    intro c u work seen tr hact hnot
    exact ⟨rfl, by simp [deploy_loop_go], by simp [deploy_loop_go],
      by simp [deploy_loop_go], by simp [deploy_loop_go], rfl⟩
  | succ m ih =>
    intro c u work seen tr hact hnot
    obtain ⟨cap, hexec⟩ := execute_action_probe f rt sn sid work c u seen tr hact
    have hns : ¬(f c).status = OperationStatus.SUCCESS := by
      have h0 := hnot 0 (by omega)
      simpa using h0
    have hact2 : recognized_action ({ work with callbackContext := mergeCtx work.callbackContext (f c).custom_context } : ResourceProviderPayload P V).action := hact
    have hnot2 : ∀ i, i < m →
        (f (c + 1 + i)).status ≠ OperationStatus.SUCCESS := by
      intro i hi
      have h := hnot (i + 1) (by omega)
      have e : c + 1 + i = c + (i + 1) := by omega
      rw [e]
      exact h
    have ihx := ih (c + 1) (u + 1)
      { work with callbackContext := mergeCtx work.callbackContext (f c).custom_context }
      (seen ++ [work.callbackContext])
      (tr ++ [TraceEv.translate, TraceEv.instantiate, TraceEv.invoke cap,
        TraceEv.sleep st])
      hact2 hnot2
    obtain ⟨h1, h2, h3, h4, h5, h6⟩ := ihx
    simp only [deploy_loop_go, hexec, if_neg hns]
    refine ⟨?_, ?_, ?_, ?_, ?_, ?_⟩
    · rw [show (tr ++ [TraceEv.translate, TraceEv.instantiate, TraceEv.invoke cap])
          ++ [TraceEv.sleep st]
          = tr ++ [TraceEv.translate, TraceEv.instantiate, TraceEv.invoke cap,
              TraceEv.sleep st] by simp]
      rw [h1]
    · rw [show (tr ++ [TraceEv.translate, TraceEv.instantiate, TraceEv.invoke cap])
          ++ [TraceEv.sleep st]
          = tr ++ [TraceEv.translate, TraceEv.instantiate, TraceEv.invoke cap,
              TraceEv.sleep st] by simp]
      rw [h2]
      dsimp only
      simp only [Prod.mk.injEq]
      constructor
      · omega
      · rw [List.append_assoc, List.singleton_append, range_map_ctxFrom]
    · rw [show (tr ++ [TraceEv.translate, TraceEv.instantiate, TraceEv.invoke cap])
          ++ [TraceEv.sleep st]
          = tr ++ [TraceEv.translate, TraceEv.instantiate, TraceEv.invoke cap,
              TraceEv.sleep st] by simp]
      rw [h3]
      omega
    · rw [show (tr ++ [TraceEv.translate, TraceEv.instantiate, TraceEv.invoke cap])
          ++ [TraceEv.sleep st]
          = tr ++ [TraceEv.translate, TraceEv.instantiate, TraceEv.invoke cap,
              TraceEv.sleep st] by simp]
      rw [h4, countInvoke_append, countInvoke_seg]
      omega
    · rw [show (tr ++ [TraceEv.translate, TraceEv.instantiate, TraceEv.invoke cap])
          ++ [TraceEv.sleep st]
          = tr ++ [TraceEv.translate, TraceEv.instantiate, TraceEv.invoke cap,
              TraceEv.sleep st] by simp]
      rw [h5, countSleep_append, countSleep_seg]
      omega
    · rw [show (tr ++ [TraceEv.translate, TraceEv.instantiate, TraceEv.invoke cap])
          ++ [TraceEv.sleep st]
          = tr ++ [TraceEv.translate, TraceEv.instantiate, TraceEv.invoke cap,
              TraceEv.sleep st] by simp]
      rw [h6]

/-- The loop never touches the caller's payload object, whatever the
registry, the provider behavior, or the number of attempts. -/
lemma deploy_loop_go_caller {σ P V : Type} (reg : Registry σ P V)
    (ex : ResourceProviderExecutor) (st : Nat)
    (caller : ResourceProviderPayload P V) :
    ∀ (n : Nat) (work : ResourceProviderPayload P V) (w : World σ),
      (deploy_loop_go reg ex st caller work w n).caller = caller := by
  intro n
  induction n with
  | zero =>
    intro work w
    rfl
  | succ m ih =>
    intro work w
    simp only [deploy_loop_go]
    cases hx : (execute_action reg ex work w).1 with
    | error e => simp [hx]
    | ok event =>
      simp only [hx]
      by_cases hs : event.status = OperationStatus.SUCCESS
      · simp [hs]
      · simp only [if_neg hs]
        exact ih _ _

lemma uuid4_injective : Function.Injective uuid4 := by
  intro a b h
  have h2 := congrArg (fun s => s.data.length) h
  simpa [uuid4] using h2

/-- C1: for every provider whose dispatched operation returns a non-SUCCESS
status on each of its first `k` attempts (`k < max_iterations`) and
`SUCCESS` on attempt `k + 1`, `deploy_loop` returns that `SUCCESS`
`ProgressEvent` unchanged, makes exactly `k + 1` provider invocations and
sleeps exactly `k` times; in particular, `SUCCESS` on the first call
(`k = 0`) means one invocation and no sleep. -/
theorem deploy_loop_success_after_k_attempts {P V : Type}
    (f : Nat → ProgressEvent P V) (rt sn sid : String)
    (payload : ResourceProviderPayload P V) (k : Nat) (mi : Int) (st u : Nat)
    (hact : recognized_action payload.action)
    (hk : (k : Int) < mi)
    (hnot : ∀ i, i < k → (f i).status ≠ OperationStatus.SUCCESS)
    (hsucc : (f k).status = OperationStatus.SUCCESS) :
    (deploy_loop (probe_registry rt f) ⟨rt, sn, sid⟩ payload mi st
        ⟨(0, []), u, []⟩).result = Except.ok (f k) ∧
    countInvoke (deploy_loop (probe_registry rt f) ⟨rt, sn, sid⟩ payload mi st
        ⟨(0, []), u, []⟩).world.trace = k + 1 ∧
    countSleep (deploy_loop (probe_registry rt f) ⟨rt, sn, sid⟩ payload mi st
        ⟨(0, []), u, []⟩).world.trace = k := by
  have hkn : k < mi.toNat := by omega
  have hx := deploy_loop_go_probe_success f rt sn sid st payload k 0 u mi.toNat
    payload [] [] hact hkn
    (by intro i hi; simpa using hnot i hi) (by simpa using hsucc)
  obtain ⟨h1, -, -, h4, h5, -⟩ := hx
  have e0 : countInvoke ([] : List TraceEv) = 0 := rfl
  have e1 : countSleep ([] : List TraceEv) = 0 := rfl
  rw [e0, Nat.zero_add] at h4
  rw [e1, Nat.zero_add] at h5
  refine ⟨?_, ?_, ?_⟩
  · simp only [deploy_loop, deepcopy_payload]
    simpa using h1
  · simp only [deploy_loop, deepcopy_payload]
    exact h4
  · simp only [deploy_loop, deepcopy_payload]
    exact h5

/-- Witness for C1 at the concrete probe: two `IN_PROGRESS` attempts then
`SUCCESS`, with `max_iterations = 30`: three invocations, two sleeps. -/
theorem deploy_loop_success_after_k_attempts_witness :
    recognized_action (witPayload "Add").action ∧
    ((2 : Nat) : Int) < 30 ∧
    (∀ i, i < 2 → (witEvents i).status ≠ OperationStatus.SUCCESS) ∧
    (witEvents 2).status = OperationStatus.SUCCESS ∧
    (deploy_loop (probe_registry "Test::Resource" witEvents)
        ⟨"Test::Resource", "sn", "sid"⟩ (witPayload "Add") 30 5
        ⟨(0, []), 0, []⟩).result = Except.ok (witEvents 2) ∧
    countInvoke (deploy_loop (probe_registry "Test::Resource" witEvents)
        ⟨"Test::Resource", "sn", "sid"⟩ (witPayload "Add") 30 5
        ⟨(0, []), 0, []⟩).world.trace = 3 ∧
    countSleep (deploy_loop (probe_registry "Test::Resource" witEvents)
        ⟨"Test::Resource", "sn", "sid"⟩ (witPayload "Add") 30 5
        ⟨(0, []), 0, []⟩).world.trace = 2 := by
  refine ⟨Or.inl rfl, by decide, by decide, by decide, ?_⟩
  exact deploy_loop_success_after_k_attempts witEvents "Test::Resource" "sn" "sid"
    (witPayload "Add") 2 30 5 0 (Or.inl rfl) (by decide) (by decide) (by decide)

/-- C2: for every provider that never returns `SUCCESS` within
`max_iterations` attempts (e.g. one that always returns `FAILED`),
`deploy_loop` performs exactly `max_iterations` invocations and sleeps, and
then fails with the timeout condition; the provider's `FAILED` event is
never returned directly, and a `FAILED` status is retried exactly like
`PENDING`/`IN_PROGRESS` (the hypothesis and conclusion treat all
non-`SUCCESS` statuses uniformly). -/
theorem deploy_loop_timeout_when_never_success {P V : Type}
    (f : Nat → ProgressEvent P V) (rt sn sid : String)
    (payload : ResourceProviderPayload P V) (mi : Int) (st u : Nat)
    (hact : recognized_action payload.action)
    (hnot : ∀ i, i < mi.toNat → (f i).status ≠ OperationStatus.SUCCESS) :
    (deploy_loop (probe_registry rt f) ⟨rt, sn, sid⟩ payload mi st
        ⟨(0, []), u, []⟩).result =
      Except.error (Err.timeoutError "Could not perform deploy loop action") ∧
    countInvoke (deploy_loop (probe_registry rt f) ⟨rt, sn, sid⟩ payload mi st
        ⟨(0, []), u, []⟩).world.trace = mi.toNat ∧
    countSleep (deploy_loop (probe_registry rt f) ⟨rt, sn, sid⟩ payload mi st
        ⟨(0, []), u, []⟩).world.trace = mi.toNat := by
  have hx := deploy_loop_go_probe_timeout f rt sn sid st payload mi.toNat 0 u
    payload [] [] hact (by intro i hi; simpa using hnot i hi)
  obtain ⟨h1, -, -, h4, h5, -⟩ := hx
  have e0 : countInvoke ([] : List TraceEv) = 0 := rfl
  have e1 : countSleep ([] : List TraceEv) = 0 := rfl
  rw [e0, Nat.zero_add] at h4
  rw [e1, Nat.zero_add] at h5
  refine ⟨?_, ?_, ?_⟩
  · simp only [deploy_loop, deepcopy_payload]
    exact h1
  · simp only [deploy_loop, deepcopy_payload]
    exact h4
  · simp only [deploy_loop, deepcopy_payload]
    exact h5

/-- Witness for C2 at the concrete probe that always returns `FAILED`, with
`max_iterations = 30`: thirty invocations, thirty sleeps, timeout raised. -/
theorem deploy_loop_timeout_when_never_success_witness :
    recognized_action (witPayload "Add").action ∧
    (∀ i, i < (30 : Int).toNat → (witEventsFailed i).status ≠ OperationStatus.SUCCESS) ∧
    (deploy_loop (probe_registry "Test::Resource" witEventsFailed)
        ⟨"Test::Resource", "sn", "sid"⟩ (witPayload "Add") 30 5
        ⟨(0, []), 0, []⟩).result =
      Except.error (Err.timeoutError "Could not perform deploy loop action") ∧
    countInvoke (deploy_loop (probe_registry "Test::Resource" witEventsFailed)
        ⟨"Test::Resource", "sn", "sid"⟩ (witPayload "Add") 30 5
        ⟨(0, []), 0, []⟩).world.trace = (30 : Int).toNat ∧
    countSleep (deploy_loop (probe_registry "Test::Resource" witEventsFailed)
        ⟨"Test::Resource", "sn", "sid"⟩ (witPayload "Add") 30 5
        ⟨(0, []), 0, []⟩).world.trace = (30 : Int).toNat := by
  refine ⟨Or.inl rfl, by decide, ?_⟩
  exact deploy_loop_timeout_when_never_success witEventsFailed "Test::Resource"
    "sn" "sid" (witPayload "Add") 30 5 0 (Or.inl rfl) (by decide)

/-- C3: across the loop, the `callbackContext` passed to attempt `i + 1`
is the previous context with the attempt-`i` event's `customContext`
merged on top, event keys winning on conflict; keys the event does not
overwrite persist. The contexts the provider actually received are logged
in the probe state and equal the `ctxFrom` iteration of `mergeCtx`. -/
theorem deploy_loop_callback_context_evolution {P V : Type}
    (f : Nat → ProgressEvent P V) (rt sn sid : String)
    (payload : ResourceProviderPayload P V) (k : Nat) (mi : Int) (st u : Nat)
    (hact : recognized_action payload.action)
    (hk : (k : Int) < mi)
    (hnot : ∀ i, i < k → (f i).status ≠ OperationStatus.SUCCESS)
    (hsucc : (f k).status = OperationStatus.SUCCESS) :
    (deploy_loop (probe_registry rt f) ⟨rt, sn, sid⟩ payload mi st
        ⟨(0, []), u, []⟩).world.ext.2 =
      (List.range (k + 1)).map (ctxFrom f payload.callbackContext 0) ∧
    (∀ j key v, (f j).custom_context key = some v →
        ctxFrom f payload.callbackContext 0 (j + 1) key = some v) ∧
    (∀ j key, (f j).custom_context key = none →
        ctxFrom f payload.callbackContext 0 (j + 1) key =
          ctxFrom f payload.callbackContext 0 j key) := by
  have hkn : k < mi.toNat := by omega
  have hx := deploy_loop_go_probe_success f rt sn sid st payload k 0 u mi.toNat
    payload [] [] hact hkn
    (by intro i hi; simpa using hnot i hi) (by simpa using hsucc)
  obtain ⟨-, h2, -, -, -, -⟩ := hx
  refine ⟨?_, ?_, ?_⟩
  · have h2' := congrArg Prod.snd h2
    simp only [List.nil_append] at h2'
    simp only [deploy_loop, deepcopy_payload]
    exact h2'
  · intro j key v h
    have hz : (0 : Nat) + j = j := Nat.zero_add j
    show mergeCtx (ctxFrom f payload.callbackContext 0 j)
        (f (0 + j)).custom_context key = _
    rw [hz]
    simp [mergeCtx, h]
  · intro j key h
    have hz : (0 : Nat) + j = j := Nat.zero_add j
    show mergeCtx (ctxFrom f payload.callbackContext 0 j)
        (f (0 + j)).custom_context key = _
    rw [hz]
    simp [mergeCtx, h]

/-- Witness for C3 at the concrete probe with `k = 2`. -/
theorem deploy_loop_callback_context_evolution_witness :
    recognized_action (witPayload "Add").action ∧
    ((2 : Nat) : Int) < 30 ∧
    (∀ i, i < 2 → (witEvents i).status ≠ OperationStatus.SUCCESS) ∧
    (witEvents 2).status = OperationStatus.SUCCESS ∧
    ((deploy_loop (probe_registry "Test::Resource" witEvents)
        ⟨"Test::Resource", "sn", "sid"⟩ (witPayload "Add") 30 5
        ⟨(0, []), 0, []⟩).world.ext.2 =
      (List.range (2 + 1)).map (ctxFrom witEvents (witPayload "Add").callbackContext 0) ∧
    (∀ j key v, (witEvents j).custom_context key = some v →
        ctxFrom witEvents (witPayload "Add").callbackContext 0 (j + 1) key = some v) ∧
    (∀ j key, (witEvents j).custom_context key = none →
        ctxFrom witEvents (witPayload "Add").callbackContext 0 (j + 1) key =
          ctxFrom witEvents (witPayload "Add").callbackContext 0 j key)) := by
  refine ⟨Or.inl rfl, by decide, by decide, by decide, ?_⟩
  exact deploy_loop_callback_context_evolution witEvents "Test::Resource" "sn"
    "sid" (witPayload "Add") 2 30 5 0 (Or.inl rfl) (by decide) (by decide)
    (by decide)

/-- C6: `deploy_loop` operates on a deep copy of the raw payload; the
caller's payload object, its `callbackContext` included, is unchanged when
the loop returns or fails, whatever the registry, the provider behavior,
the iteration budget, or the contexts returned. -/
theorem deploy_loop_preserves_caller_payload {σ P V : Type}
    (reg : Registry σ P V) (ex : ResourceProviderExecutor)
    (raw_payload : ResourceProviderPayload P V) (mi : Int) (st : Nat)
    (w : World σ) :
    (deploy_loop reg ex raw_payload mi st w).caller = raw_payload := by
  simp only [deploy_loop, deepcopy_payload]
  exact deploy_loop_go_caller reg ex st raw_payload mi.toNat raw_payload w

/-- C10: for every `max_iterations ≤ 0`, `deploy_loop` fails with the
timeout condition at once: no provider invocation, no sleep, no context
merge — the world and the caller's payload come back untouched. -/
theorem deploy_loop_nonpositive_max_iterations {σ P V : Type}
    (reg : Registry σ P V) (ex : ResourceProviderExecutor)
    (raw_payload : ResourceProviderPayload P V) (mi : Int) (st : Nat)
    (w : World σ) (h : mi ≤ 0) :
    deploy_loop reg ex raw_payload mi st w =
      ⟨Except.error (Err.timeoutError "Could not perform deploy loop action"),
       w, raw_payload⟩ := by
  have h0 : mi.toNat = 0 := by omega
  simp only [deploy_loop, deepcopy_payload, h0]
  rfl

/-- Witness for C10 at `max_iterations = -1` with the registered concrete
provider: immediate timeout, world untouched. -/
theorem deploy_loop_nonpositive_max_iterations_witness :
    (-1 : Int) ≤ 0 ∧
    deploy_loop witRegistry ⟨"Test::Resource", "sn", "sid"⟩ (witPayload "Add")
        (-1) 5 ⟨(), 0, []⟩ =
      ⟨Except.error (Err.timeoutError "Could not perform deploy loop action"),
       ⟨(), 0, []⟩, witPayload "Add"⟩ := by
  refine ⟨by decide, ?_⟩
  exact deploy_loop_nonpositive_max_iterations witRegistry
    ⟨"Test::Resource", "sn", "sid"⟩ (witPayload "Add") (-1) 5 ⟨(), 0, []⟩
    (by decide)

/-- C4: with a registered resource type, the action string `"Add"` invokes
the provider's `create`, `"Modify"` and `"Dynamic"` invoke `update`,
`"Remove"` invokes `delete`, and any other action fails fatally with a
not-implemented condition naming that action, without invoking any
capability; the selected capability's `ProgressEvent` is returned
unchanged. -/
theorem execute_action_dispatch {σ P V : Type} (reg : Registry σ P V)
    (ex : ResourceProviderExecutor) (payload : ResourceProviderPayload P V)
    (w : World σ) (provider : ResourceProvider σ P V)
    (hreg : reg ex.resource_type = some provider) :
    (payload.action = "Add" →
      execute_action reg ex payload w =
        (let rw := convert_payload ex.stack_name ex.stack_id payload w
         let rs := provider.create rw.1 rw.2.ext
         (rs.1, ⟨rs.2, rw.2.uuidCount,
           rw.2.trace ++ [TraceEv.instantiate, TraceEv.invoke "create"]⟩))) ∧
    (payload.action = "Modify" →
      execute_action reg ex payload w =
        (let rw := convert_payload ex.stack_name ex.stack_id payload w
         let rs := provider.update rw.1 rw.2.ext
         (rs.1, ⟨rs.2, rw.2.uuidCount,
           rw.2.trace ++ [TraceEv.instantiate, TraceEv.invoke "update"]⟩))) ∧
    (payload.action = "Dynamic" →
      execute_action reg ex payload w =
        (let rw := convert_payload ex.stack_name ex.stack_id payload w
         let rs := provider.update rw.1 rw.2.ext
         (rs.1, ⟨rs.2, rw.2.uuidCount,
           rw.2.trace ++ [TraceEv.instantiate, TraceEv.invoke "update"]⟩))) ∧
    (payload.action = "Remove" →
      execute_action reg ex payload w =
        (let rw := convert_payload ex.stack_name ex.stack_id payload w
         let rs := provider.delete rw.1 rw.2.ext
         (rs.1, ⟨rs.2, rw.2.uuidCount,
           rw.2.trace ++ [TraceEv.instantiate, TraceEv.invoke "delete"]⟩))) ∧
    (payload.action ≠ "Add" → payload.action ≠ "Dynamic" →
     payload.action ≠ "Modify" → payload.action ≠ "Remove" →
      execute_action reg ex payload w =
        (Except.error (Err.notImplementedError (some payload.action)),
         let rw := convert_payload ex.stack_name ex.stack_id payload w
         ⟨rw.2.ext, rw.2.uuidCount, rw.2.trace ++ [TraceEv.instantiate]⟩) ∧
      countInvoke (execute_action reg ex payload w).2.trace =
        countInvoke w.trace) := by
  refine ⟨?_, ?_, ?_, ?_, ?_⟩
  · intro h
    simp [execute_action, hreg, h]
  · intro h
    simp [execute_action, hreg, h]
  · intro h
    simp [execute_action, hreg, h]
  · intro h
    simp [execute_action, hreg, h]
  · intro h1 h2 h3 h4
    constructor
    · simp [execute_action, hreg, h1, h2, h3, h4]
    · simp [execute_action, convert_payload, hreg, h1, h2, h3, h4,
        countInvoke_append, countInvoke]

/-- Witness for C4 at the concrete registry and the `"Add"` action: the
provider's `create` event is returned unchanged after translate,
instantiate and a single `create` invocation. -/
theorem execute_action_dispatch_witness :
    witRegistry "Test::Resource" = some witProvider ∧
    execute_action witRegistry ⟨"Test::Resource", "sn", "sid"⟩
        (witPayload "Add") ⟨(), 0, []⟩ =
      (Except.ok ⟨OperationStatus.SUCCESS, (), "", none, none, fun _ => none⟩,
       ⟨(), 1, [TraceEv.translate, TraceEv.instantiate, TraceEv.invoke "create"]⟩) := by
  refine ⟨rfl, ?_⟩
  exact (execute_action_dispatch witRegistry ⟨"Test::Resource", "sn", "sid"⟩
    (witPayload "Add") ⟨(), 0, []⟩ witProvider rfl).1 rfl

/-- C5: for a resource type absent from the registry, `execute_action`
fails fatally and immediately with a not-implemented condition: the world
is returned untouched, so no `ResourceRequest` is constructed (no token
minted, no translate event) and no capability is invoked; inside
`deploy_loop` this aborts the whole loop without consuming a retry attempt
(no sleep, no invocation, result is not a timeout). -/
theorem execute_action_unregistered_type {σ P V : Type} (reg : Registry σ P V)
    (ex : ResourceProviderExecutor) (payload : ResourceProviderPayload P V)
    (w : World σ) (mi : Int) (st : Nat)
    (hreg : reg ex.resource_type = none) :
    execute_action reg ex payload w =
      (Except.error (Err.notImplementedError none), w) ∧
    (0 < mi →
      deploy_loop reg ex payload mi st w =
        ⟨Except.error (Err.notImplementedError none), w, payload⟩) := by
  have hx : execute_action reg ex payload w =
      (Except.error (Err.notImplementedError none), w) := by
    simp [execute_action, hreg]
  refine ⟨hx, ?_⟩
  intro hmi
  obtain ⟨m, hm⟩ := Nat.exists_eq_succ_of_ne_zero
    (show mi.toNat ≠ 0 by omega)
  simp only [deploy_loop, deepcopy_payload, hm, deploy_loop_go, hx]

/-- Witness for C5 at the concrete empty registry with
`max_iterations = 30`. -/
theorem execute_action_unregistered_type_witness :
    witRegistryEmpty "Test::Resource" = none ∧
    (0 : Int) < 30 ∧
    execute_action witRegistryEmpty ⟨"Test::Resource", "sn", "sid"⟩
        (witPayload "Add") ⟨(), 0, []⟩ =
      (Except.error (Err.notImplementedError none), ⟨(), 0, []⟩) ∧
    deploy_loop witRegistryEmpty ⟨"Test::Resource", "sn", "sid"⟩
        (witPayload "Add") 30 5 ⟨(), 0, []⟩ =
      ⟨Except.error (Err.notImplementedError none), ⟨(), 0, []⟩,
       witPayload "Add"⟩ := by
  refine ⟨rfl, by decide, ?_, ?_⟩
  · exact (execute_action_unregistered_type witRegistryEmpty
      ⟨"Test::Resource", "sn", "sid"⟩ (witPayload "Add") ⟨(), 0, []⟩ 30 5 rfl).1
  · exact (execute_action_unregistered_type witRegistryEmpty
      ⟨"Test::Resource", "sn", "sid"⟩ (witPayload "Add") ⟨(), 0, []⟩ 30 5 rfl).2
      (by decide)

/-- C7: the request translator passes `resourceProperties` through as both
`desired_state` and the untranslated `_original_payload`, carries
`callbackContext` into `custom_context` verbatim, mints a fresh request
token on each call (successive calls never repeat a token), and apart from
the token its output is determined by its inputs. -/
theorem convert_payload_translation {P V σ : Type} (sn sid : String)
    (payload : ResourceProviderPayload P V) (w : World σ) :
    (convert_payload sn sid payload w).1.desired_state =
      payload.requestData.resourceProperties ∧
    (convert_payload sn sid payload w).1._original_payload =
      payload.requestData.resourceProperties ∧
    (convert_payload sn sid payload w).1.custom_context =
      payload.callbackContext ∧
    (convert_payload sn sid payload w).2.uuidCount = w.uuidCount + 1 ∧
    (∀ (sn2 sid2 : String) (p2 : ResourceProviderPayload P V),
      (convert_payload sn2 sid2 p2
          (convert_payload sn sid payload w).2).1.request_token ≠
        (convert_payload sn sid payload w).1.request_token) ∧
    (∀ w2 w3 : World σ,
      erase_request_token (convert_payload sn sid payload w2).1 =
        erase_request_token (convert_payload sn sid payload w3).1) := by
  refine ⟨rfl, rfl, rfl, rfl, ?_, ?_⟩
  · intro sn2 sid2 p2 he
    have he2 : uuid4 (w.uuidCount + 1) = uuid4 w.uuidCount := he
    have h3 := uuid4_injective he2
    omega
  · intro w2 w3
    rfl

/-- C8: with a registered resource type and an unrecognized action string,
`execute_action` still constructs the `ResourceRequest` (a token is minted
and the translate event logged) and instantiates the provider before
raising the not-implemented condition naming the action: only the
capability invocation is skipped. -/
theorem execute_action_unknown_action_still_translates {σ P V : Type}
    (reg : Registry σ P V) (ex : ResourceProviderExecutor)
    (payload : ResourceProviderPayload P V) (w : World σ)
    (provider : ResourceProvider σ P V)
    (hreg : reg ex.resource_type = some provider)
    (h1 : payload.action ≠ "Add") (h2 : payload.action ≠ "Dynamic")
    (h3 : payload.action ≠ "Modify") (h4 : payload.action ≠ "Remove") :
    execute_action reg ex payload w =
      (Except.error (Err.notImplementedError (some payload.action)),
       ⟨w.ext, w.uuidCount + 1,
        w.trace ++ [TraceEv.translate, TraceEv.instantiate]⟩) := by
  simp [execute_action, convert_payload, hreg, h1, h2, h3, h4]

/-- Witness for C8 at the concrete registry and the action `"Destroy"`. -/
theorem execute_action_unknown_action_still_translates_witness :
    witRegistry "Test::Resource" = some witProvider ∧
    (witPayload "Destroy").action ≠ "Add" ∧
    (witPayload "Destroy").action ≠ "Dynamic" ∧
    (witPayload "Destroy").action ≠ "Modify" ∧
    (witPayload "Destroy").action ≠ "Remove" ∧
    execute_action witRegistry ⟨"Test::Resource", "sn", "sid"⟩
        (witPayload "Destroy") ⟨(), 0, []⟩ =
      (Except.error (Err.notImplementedError (some "Destroy")),
       ⟨(), 1, [TraceEv.translate, TraceEv.instantiate]⟩) := by
  refine ⟨rfl, by decide, by decide, by decide, by decide, ?_⟩
  exact execute_action_unknown_action_still_translates witRegistry
    ⟨"Test::Resource", "sn", "sid"⟩ (witPayload "Destroy") ⟨(), 0, []⟩
    witProvider rfl (by decide) (by decide) (by decide) (by decide)

/-- C9: the translated request's `account_id` is the constant
`"000000000000"` and its `region_name` the constant `"us-east-1"`,
whatever the payload's `awsAccountId` and `region`; the payload's `region`
influences only the scoped client factory, and `awsAccountId` influences
nothing. -/
theorem convert_payload_fixed_account_region {P V σ : Type} (sn sid : String)
    (payload : ResourceProviderPayload P V) (w : World σ) :
    (convert_payload sn sid payload w).1.account_id = "000000000000" ∧
    (convert_payload sn sid payload w).1.region_name = "us-east-1" ∧
    (convert_payload sn sid payload w).1.aws_client_factory.region_name =
      payload.region ∧
    (∀ r : String,
      erase_client_factory
          (convert_payload sn sid { payload with region := r } w).1 =
        erase_client_factory (convert_payload sn sid payload w).1) ∧
    (∀ a : String,
      (convert_payload sn sid { payload with awsAccountId := a } w).1 =
        (convert_payload sn sid payload w).1) := by
  refine ⟨rfl, rfl, rfl, ?_, ?_⟩
  · intro r
    rfl
  · intro a
    rfl

end LocalStack
